import Mathlib

/-!
Verification of the ballerz fantasy-football analytics pipeline.

This file gives a shallow embedding of the parts of the repository that the
verified properties speak about:

* the per-entity rolling / trend / projection / context feature computations of
  `FeatureEngineer` (src/src/features/feature_engineering.py), including the
  pandas rolling-window semantics (`rolling(window=w, min_periods=m)`) that the
  code relies on;
* the target-variable construction (`create_target_variable`);
* the full `engineer_all_features` pass over a performance table;
* the stratified train/test split of `BaselineModel.train_and_evaluate`
  (src/src/models/baseline_model.py), via the validation rules of sklearn's
  `StratifiedShuffleSplit`, which is the library call the code makes;
* the feature-column selection of `make_predictions` (src/predict.py);
* the `PlayerPredictor` prediction service (src/predict_player.py) and its
  method dispatch against `BaselineModel`;
* the report ranking of `WeeklyReportGenerator.generate_report`
  (src/scripts/weekly_report.py) and the pairwise comparison of
  `InteractivePredictor._display_comparison` (src/interactive_predictor.py).

Numeric columns are modelled over `ℚ` (the Python code computes in floats; the
verified properties are exact-arithmetic statements).  A pandas `NaN` is
modelled as `Option.none`; `fillna(0)` becomes `Option.getD 0`.  The rolling
standard deviation is the square root of the rolling variance; since the square
root of a rational is irrational in general, the development tracks the exact
variance (the square of the std column) wherever an exact value is needed, and
abstracts the float square root as an arbitrary function `sq : ℚ → ℚ` where a
std value only flows into other columns (`consistency`,
`projection_confidence`).
-/

namespace Ballerz

/-! ## Rolling-window primitives (pandas semantics)

`Series.rolling(window=w, min_periods=m)` at position `i` aggregates the
trailing window of the last `min w (i+1)` values; the aggregate is `NaN`
(here `none`) when the window holds fewer than `m` observations. -/

/-- Trailing window of a pandas rolling computation at position `i`: the last
`min w (i+1)` elements of the first `i+1` elements of the series. -/
def windowAt (w : Nat) (xs : List ℚ) (i : Nat) : List ℚ :=
  (xs.take (i + 1)).drop (i + 1 - w)

/-- Arithmetic mean of a list of rationals. -/
def listMean (l : List ℚ) : ℚ := l.sum / (l.length : ℚ)

/-- pandas `x.rolling(window=w, min_periods=minp).mean()` at position `i`
(`none` encodes `NaN`). -/
def rollingMean (w minp : Nat) (xs : List ℚ) (i : Nat) : Option ℚ :=
  if minp ≤ (windowAt w xs i).length then some (listMean (windowAt w xs i))
  else none

/-- Sample variance with `ddof = 1` as pandas computes it, from the running
sums: `(Σ x² − (Σ x)² / n) / (n − 1)`. -/
def listVar (l : List ℚ) : ℚ :=
  ((l.map fun x => x ^ 2).sum - l.sum ^ 2 / (l.length : ℚ)) / ((l.length : ℚ) - 1)

/-- pandas `x.rolling(window=w, min_periods=minp).var(ddof=1)` at position `i`;
`NaN` (`none`) when fewer than `minp` observations are available, or when the
window holds a single observation (`0/0` under `ddof = 1`). -/
def rollingVar (w minp : Nat) (xs : List ℚ) (i : Nat) : Option ℚ :=
  if minp ≤ (windowAt w xs i).length ∧ 2 ≤ (windowAt w xs i).length then
    some (listVar (windowAt w xs i))
  else none

/-- Square of the rolling-std feature column
`x.rolling(window=w, min_periods=2).std().fillna(0)` built in
`create_rolling_features` (feature_engineering.py:64-68): the std is the square
root of the `ddof = 1` rolling variance, and `fillna(0)` commutes with squaring
because `0² = 0`. -/
def rollingVarFilled (w : Nat) (xs : List ℚ) (i : Nat) : ℚ :=
  (rollingVar w 2 xs i).getD 0

/-! ## Specification-side definitions (used only to state the properties) -/

/-- Specification-side: the last `n` values of a list. -/
def lastValues (n : Nat) (l : List ℚ) : List ℚ := l.drop (l.length - n)

/-- Specification-side: the textbook unbiased (`ddof = 1`) sample variance,
the sum of squared deviations from the mean divided by `n − 1`. -/
def unbiasedSampleVar (l : List ℚ) : ℚ :=
  (l.map fun x => (x - listMean l) ^ 2).sum / ((l.length : ℚ) - 1)

/-! ## Trend features (create_trend_features, feature_engineering.py:91-105) -/

/-- Trend feature `X_trend_3v3` exactly as the code computes it
(feature_engineering.py:94-97):
`x.rolling(3, min_periods=3).mean() - x.rolling(6, min_periods=6).mean().shift(3)`;
the shifted term at row `i` is the 6-period rolling mean at row `i − 3`
(`none` for `i < 3`), and the difference is `NaN` when either side is. -/
def trend3v3 (xs : List ℚ) (i : Nat) : Option ℚ :=
  match rollingMean 3 3 xs i, (if i < 3 then none else rollingMean 6 6 xs (i - 3)) with
  | some a, some b => some (a - b)
  | _, _ => none

/-- Modelled from the spec: the trend as the claim states it, the mean of the
most recent 3 periods minus the mean of the prior non-overlapping 3 periods,
i.e. the 3-period rolling mean minus the same 3-period rolling mean shifted
back 3 periods. -/
def trend3v3Claimed (xs : List ℚ) (i : Nat) : Option ℚ :=
  match rollingMean 3 3 xs i, (if i < 3 then none else rollingMean 3 3 xs (i - 3)) with
  | some a, some b => some (a - b)
  | _, _ => none

/-- Week-over-week change `groupby(player)[stat].diff()`
(feature_engineering.py:100): `NaN` at the first row of the group. -/
def weekChange (xs : List ℚ) (j : Nat) : Option ℚ :=
  if j = 0 then none else some (xs.getD j 0 - xs.getD (j - 1) 0)

/-- Consistency feature `1 / (1 + x.rolling(5, min_periods=3).std())`
(feature_engineering.py:103-105); `sq` abstracts the float square root applied
to the rolling variance. -/
def consistencyFeat (sq : ℚ → ℚ) (xs : List ℚ) (j : Nat) : Option ℚ :=
  (rollingVar 5 3 xs j).map fun v => 1 / (1 + sq v)

/-! ## Stratified split of the training pipeline
(BaselineModel.train_and_evaluate, baseline_model.py:259-271)

The code calls sklearn's `train_test_split(X, y, test_size=0.2, stratify=y)`,
which delegates to `StratifiedShuffleSplit`.  Its validation, embedded below,
raises iff some class of `y` has fewer than 2 members, or the number of
classes exceeds the train- or test-row count; with fraction `ts` the split
sizes are `n_test = ⌈ts·n⌉` and `n_train = n − n_test`. -/

/-- Number of test rows sklearn's splitter selects for fraction `ts`. -/
def nTestRows (n : Nat) (ts : ℚ) : Nat := (⌈(n : ℚ) * ts⌉).toNat

/-- Number of train rows sklearn's splitter selects for fraction `ts`. -/
def nTrainRows (n : Nat) (ts : ℚ) : Nat := n - nTestRows n ts

/-- Validation performed by sklearn's `StratifiedShuffleSplit` (the semantics
of the `train_test_split(..., stratify=y)` call at baseline_model.py:263):
the split raises a `ValueError` iff the least populated class of `y` has fewer
than 2 members, or there are more classes than train rows or test rows. -/
def stratifiedSplitRaises (y : List Nat) (ts : ℚ) : Bool :=
  ((y.dedup).map fun c => y.count c).any (fun k => decide (k < 2)) ||
  decide (nTrainRows y.length ts < y.dedup.length) ||
  decide (nTestRows y.length ts < y.dedup.length)

/-- The training pipeline reaches `RandomForestClassifier.fit`
(baseline_model.py:271, via `train_model`) iff the stratified split returns
instead of raising; no other validation sits between the split and the fit. -/
def trainReachesFit (y : List Nat) (ts : ℚ) : Bool :=
  !(stratifiedSplitRaises y ts)

/-! ## Prediction-service tiers (predict_player.py:138-158) -/

/-- PlayerPredictor.get_confidence_level (predict_player.py:138-145). -/
def getConfidenceLevel (p : ℚ) : String :=
  if p ≥ 0.8 then "HIGH"
  else if p ≥ 0.6 then "MEDIUM"
  else "LOW"

/-- PlayerPredictor.get_recommendation (predict_player.py:147-158). -/
def getRecommendation (pred : Nat) (p : ℚ) : String :=
  if pred = 1 then
    if p ≥ 0.7 then "STRONG START" else "CONSIDER STARTING"
  else
    if p ≥ 0.7 then "AVOID" else "CONSIDER BENCHING"

/-! ## The performance table and its sort

One row of the raw performance table, restricted to the columns the feature
pipeline reads (the schema written by collect_data.py /
nfl_data_integration.py).  `over_performed` is meaningful only when the
table-level flag `hasOverPerformed` is set, mirroring the optional presence of
that column.  `sort_values([player, season, week])` is modelled by insertion
sort under the lexicographic key; the code's quicksort agrees with it on every
table whose `(player, season, week)` keys are pairwise distinct, which is the
documented uniqueness invariant of `PerformanceRecord`. -/

structure Row where
  player_name : String
  season : Int
  week : Int
  team : String
  rushing_yards : ℚ
  rushing_touchdowns : ℚ
  receptions : ℚ
  receiving_yards : ℚ
  receiving_touchdowns : ℚ
  fantasy_points : ℚ
  projection : ℚ
  over_performed : Bool
  deriving DecidableEq, Repr

/-- A raw performance table: the rows plus whether the optional
`over_performed` column is present. -/
structure RawTable where
  hasOverPerformed : Bool
  rows : List Row
  deriving DecidableEq, Repr

/-- Sort key of `df.sort_values([player_name, season, week])`. -/
def rowKey (r : Row) : String ×ₗ (Int ×ₗ Int) :=
  toLex (r.player_name, toLex (r.season, r.week))

/-- Row comparison under the lexicographic `(player, season, week)` key. -/
def rowLE (a b : Row) : Prop := rowKey a ≤ rowKey b

instance : DecidableRel rowLE := fun a b =>
  inferInstanceAs (Decidable (rowKey a ≤ rowKey b))

instance : IsTotal Row rowLE := ⟨fun a b => le_total (rowKey a) (rowKey b)⟩

instance : IsTrans Row rowLE := ⟨fun _ _ _ h1 h2 => le_trans h1 h2⟩

instance : DecidableEq (String ×ₗ (Int ×ₗ Int)) :=
  inferInstanceAs (DecidableEq (String × (Int × Int)))

/-- The `(player, season, week)` sort performed at the top of each feature
step (feature_engineering.py:44, 86). -/
def sortRows (l : List Row) : List Row := List.insertionSort rowLE l

/-! ## The feature pipeline (engineer_all_features, feature_engineering.py:192-230)

After the sort, `groupby(player_name)[stat].transform(...)` applies each
rolling lambda to the entity's time-ordered series; a row at global index `i`
sits at position `posInGroup rows i player` of its entity's series
`statSeries rows stat player`. -/

/-- Time-ordered series of one statistic for one entity of a sorted table. -/
def statSeries (rows : List Row) (f : Row → ℚ) (p : String) : List ℚ :=
  (rows.filter fun r => r.player_name = p).map f

/-- Position of the row at global index `i` inside its entity's series. -/
def posInGroup (rows : List Row) (i : Nat) (p : String) : Nat :=
  ((rows.take (i + 1)).filter fun r => r.player_name = p).length - 1

/-- Statistics receiving rolling features (feature_engineering.py:50-53). -/
def rollingStatCols : List (String × (Row → ℚ)) :=
  [("rushing_yards", fun r => r.rushing_yards),
   ("rushing_touchdowns", fun r => r.rushing_touchdowns),
   ("receptions", fun r => r.receptions),
   ("receiving_yards", fun r => r.receiving_yards),
   ("receiving_touchdowns", fun r => r.receiving_touchdowns),
   ("fantasy_points", fun r => r.fantasy_points)]

/-- Statistics receiving trend features (feature_engineering.py:89). -/
def trendStatCols : List (String × (Row → ℚ)) :=
  [("fantasy_points", fun r => r.fantasy_points),
   ("rushing_yards", fun r => r.rushing_yards),
   ("receptions", fun r => r.receptions)]

/-- Value of the `fillna(0)`-ed rolling-std column: the abstracted square root
`sq` of the `ddof = 1` rolling variance where defined, `0` where `NaN`. -/
def stdFilled (sq : ℚ → ℚ) (w : Nat) (xs : List ℚ) (j : Nat) : ℚ :=
  match rollingVar w 2 xs j with
  | some v => sq v
  | none => 0

/-- Rolling mean and std columns of `create_rolling_features`
(feature_engineering.py:55-68), for the configured default windows `[3, 5]`,
in the column order pandas creates them. -/
def rollingFeats (sq : ℚ → ℚ) (rows : List Row) (i : Nat) (r : Row) :
    List (String × Option ℚ) :=
  [3, 5].flatMap fun w =>
    rollingStatCols.flatMap fun sc =>
      [(sc.1 ++ "_rolling_" ++ toString w,
        rollingMean w 1 (statSeries rows sc.2 r.player_name)
          (posInGroup rows i r.player_name)),
       (sc.1 ++ "_rolling_" ++ toString w ++ "_std",
        some (stdFilled sq w (statSeries rows sc.2 r.player_name)
          (posInGroup rows i r.player_name)))]

/-- Trend columns of `create_trend_features` (feature_engineering.py:91-105). -/
def trendFeats (sq : ℚ → ℚ) (rows : List Row) (i : Nat) (r : Row) :
    List (String × Option ℚ) :=
  trendStatCols.flatMap fun sc =>
    [(sc.1 ++ "_trend_3v3",
      trend3v3 (statSeries rows sc.2 r.player_name) (posInGroup rows i r.player_name)),
     (sc.1 ++ "_week_change",
      weekChange (statSeries rows sc.2 r.player_name) (posInGroup rows i r.player_name)),
     (sc.1 ++ "_consistency",
      consistencyFeat sq (statSeries rows sc.2 r.player_name)
        (posInGroup rows i r.player_name))]

/-- Projection columns of `create_projection_features`
(feature_engineering.py:109-136). -/
def projFeats (sq : ℚ → ℚ) (rows : List Row) (i : Nat) (r : Row) :
    List (String × Option ℚ) :=
  [("projection_error", some (r.fantasy_points - r.projection)),
   ("projection_accuracy_rolling_5",
    rollingMean 5 3 (statSeries rows (fun x => x.fantasy_points - x.projection) r.player_name)
      (posInGroup rows i r.player_name)),
   ("projection_vs_recent",
    (rollingMean 3 1 (statSeries rows (fun x => x.fantasy_points) r.player_name)
      (posInGroup rows i r.player_name)).map fun m => r.projection - m),
   ("projection_confidence",
    some (1 / (1 + stdFilled sq 3 (statSeries rows (fun x => x.fantasy_points) r.player_name)
      (posInGroup rows i r.player_name))))]

/-- Team-dummy column names: `pd.get_dummies` emits one column per distinct
team value, in sorted order (feature_engineering.py:163-165). -/
def teamCols (rows : List Row) : List String :=
  List.insertionSort (fun a b : String => a ≤ b) ((rows.map fun r => r.team).dedup)

/-- Context columns of `create_context_features`
(feature_engineering.py:138-167); `post_bye` is the hardcoded placeholder 0. -/
def contextFeats (teams : List String) (r : Row) : List (String × Option ℚ) :=
  [("season_week", some (r.week : ℚ)),
   ("late_season", some (if 14 ≤ r.week then 1 else 0)),
   ("early_season", some (if r.week ≤ 4 then 1 else 0)),
   ("post_bye", some 0)] ++
  teams.map fun t => ("team_" ++ t, some (if r.team = t then (1 : ℚ) else 0))

/-- Target of `create_target_variable` (feature_engineering.py:169-190): the
`over_performed` flag cast to int when that column is present, otherwise the
indicator of `fantasy_points > projection`.  The error branch for a table
missing both sources is unreachable here because this schema always carries
`fantasy_points` and `projection`. -/
def targetOf (hasOP : Bool) (r : Row) : Nat :=
  if hasOP then (if r.over_performed then 1 else 0)
  else if r.fantasy_points > r.projection then 1 else 0

/-- One engineered output row: the original columns, the appended feature
columns in creation order with the final `fillna(0)` applied
(feature_engineering.py:217-220), and the target.  The `dropna(subset=[target])`
step is a no-op since the target is never `NaN`. -/
structure EngRow where
  base : Row
  feats : List (String × ℚ)
  target : Nat
  deriving DecidableEq, Repr

/-- Feature engineering applied to an already-sorted table. -/
def engineerSorted (sq : ℚ → ℚ) (hasOP : Bool) (rows : List Row) : List EngRow :=
  rows.enum.map fun p =>
    { base := p.2,
      feats :=
        ((rollingFeats sq rows p.1 p.2 ++ trendFeats sq rows p.1 p.2 ++
          projFeats sq rows p.1 p.2 ++ contextFeats (teamCols rows) p.2).map
          fun c => (c.1, c.2.getD 0)),
      target := targetOf hasOP p.2 }

/-- FeatureEngineer.engineer_all_features (feature_engineering.py:192-230):
copy the input, sort by `(player, season, week)`, append all feature columns,
build the target, fill missing numeric values with 0. -/
def engineerAllFeatures (sq : ℚ → ℚ) (t : RawTable) : List EngRow :=
  engineerSorted sq t.hasOverPerformed (sortRows t.rows)

/-! ## Prediction path of predict.py -/

/-- A column-labelled numeric table as handed to `make_predictions`. -/
structure Frame where
  cols : List String
  rows : List (List ℚ)
  deriving DecidableEq, Repr

/-- Check that every requested column is present. -/
def frameHasCols (fr : Frame) (cols : List String) : Bool :=
  cols.all fun c => fr.cols.contains c

/-- pandas column selection `data[feature_columns].fillna(0)` (predict.py:50):
a `KeyError` is raised when any requested column is absent, otherwise the
selected sub-table is returned. -/
def selectFrameCols (fr : Frame) (cols : List String) : Except String Frame :=
  if frameHasCols fr cols then
    Except.ok
      { cols := cols,
        rows := fr.rows.map fun r => cols.map fun c => ((fr.cols.zip r).lookup c).getD 0 }
  else Except.error "KeyError"

/-- make_predictions (predict.py:37-61), parameterized by the loaded model's
`predict` and `predict_proba` functions: the column selection happens first,
and the model functions are applied only to its result. -/
def makePredictions (predictFn : Frame → List Nat) (probaFn : Frame → List ℚ)
    (featureCols : List String) (data : Frame) : Except String (List (Nat × ℚ)) :=
  match selectFrameCols data featureCols with
  | Except.error e => Except.error e
  | Except.ok x => Except.ok ((predictFn x).zip (probaFn x))

/-! ## PlayerPredictor (predict_player.py) against BaselineModel -/

/-- Methods defined on `BaselineModel` (baseline_model.py:22-285): the class
body defines exactly these, and in particular no `load_model`,
`predict_single_player`, `predict_proba_single_player` or
`get_feature_importance`. -/
def baselineModelMethods : List String :=
  ["load_data", "prepare_features", "train_model", "evaluate_model",
   "feature_importance_analysis", "save_model", "train_and_evaluate"]

/-- Outcome of constructing a `PlayerPredictor`. -/
inductive InitOutcome
  | usable
  | exited (code : Nat)
  deriving DecidableEq, Repr

/-- PlayerPredictor.load_model (predict_player.py:39-47): the call
`self.model.load_model(...)` is an attribute lookup on `BaselineModel`; when
the attribute is missing the `AttributeError` is caught and the process exits
with code 1. -/
def playerLoadModel : InitOutcome :=
  if baselineModelMethods.contains "load_model" then InitOutcome.usable
  else InitOutcome.exited 1

/-- PlayerPredictor.__init__ (predict_player.py:25-37): exits with code 1 when
the model file is absent, otherwise runs `load_model`. -/
def playerPredictorInit (modelPathExists : Bool) : InitOutcome :=
  if modelPathExists then playerLoadModel else InitOutcome.exited 1

/-- Outcome of the prediction step of `predict_player`. -/
inductive PredictOutcome
  | result (overProb : ℚ)
  | errorTagged (msg : String)
  deriving DecidableEq, Repr

/-- Prediction step of PlayerPredictor.predict_player
(predict_player.py:113-136): it calls `predict_single_player`,
`predict_proba_single_player` and `get_feature_importance` on the loaded
`BaselineModel`; a missing attribute raises, the handler converts the
exception into an error-tagged dict. -/
def predictPlayerStep (proba : ℚ) : PredictOutcome :=
  if baselineModelMethods.contains "predict_single_player" &&
     baselineModelMethods.contains "predict_proba_single_player" &&
     baselineModelMethods.contains "get_feature_importance" then
    PredictOutcome.result proba
  else PredictOutcome.errorTagged "Prediction failed: AttributeError"

/-! ## Report aggregation (weekly_report.py, interactive_predictor.py) -/

/-- The fields of a prediction-result dict that ranking and comparison read. -/
structure PredRes where
  player_name : String
  over_perform_probability : ℚ
  deriving DecidableEq, Repr

/-- Descending-probability comparison used by
`sorted(..., key=lambda x: x[over_perform_probability], reverse=True)`. -/
def probDescLE (a b : PredRes) : Prop :=
  b.over_perform_probability ≤ a.over_perform_probability

instance : DecidableRel probDescLE := fun a b =>
  inferInstanceAs (Decidable (b.over_perform_probability ≤ a.over_perform_probability))

instance : IsTotal PredRes probDescLE :=
  ⟨fun a b => le_total b.over_perform_probability a.over_perform_probability⟩

instance : IsTrans PredRes probDescLE :=
  ⟨fun _ _ _ h1 h2 => le_trans h2 h1⟩

/-- Ranking step of WeeklyReportGenerator.generate_report
(weekly_report.py:70): sort descending by over-perform probability. -/
def sortByProbDesc (l : List PredRes) : List PredRes :=
  List.insertionSort probDescLE l

/-- Winner determination of InteractivePredictor._display_comparison
(interactive_predictor.py:210-221): the higher-probability result is reported
with the probability difference as margin; `none` encodes the tie message. -/
def displayComparison (r1 r2 : PredRes) : Option (String × ℚ) :=
  if r2.over_perform_probability < r1.over_perform_probability then
    some (r1.player_name, r1.over_perform_probability - r2.over_perform_probability)
  else if r1.over_perform_probability < r2.over_perform_probability then
    some (r2.player_name, r2.over_perform_probability - r1.over_perform_probability)
  else none

/-! ## Concrete values used by the witnesses -/

/-- Three periods of one entity with fantasy scores 10, 20, 30 (the spec's
rolling-window scenario). -/
def wRows : List Row :=
  [⟨"Alpha", 2023, 1, "KC", 80, 1, 3, 25, 0, 10, 12, false⟩,
   ⟨"Alpha", 2023, 2, "KC", 90, 0, 4, 30, 1, 20, 21, false⟩,
   ⟨"Alpha", 2023, 3, "KC", 70, 1, 2, 15, 0, 30, 22, false⟩]

/-- Two distinct-keyed rows used by the determinism witness. -/
def rowA : Row := ⟨"Alpha", 2023, 1, "KC", 80, 1, 3, 25, 0, 18, 15, true⟩

/-- Second row of the determinism witness, one week after `rowA`. -/
def rowB : Row := ⟨"Alpha", 2023, 2, "KC", 90, 0, 4, 30, 1, 20, 21, false⟩

/-- A row whose `over_performed` flag contradicts `fantasy_points > projection`
(the flag says over-performed, but actual equals projection). -/
def cRow : Row := ⟨"Alpha", 2023, 1, "KC", 0, 0, 0, 0, 0, 10, 10, true⟩

/-- The spec-scenario row: actual 25, projection 20, no flag column. -/
def dRow : Row := ⟨"Alpha", 2023, 1, "KC", 0, 0, 0, 0, 0, 25, 20, false⟩

/-- The engineered row produced from `dRow`. -/
def dEng : EngRow :=
  (engineerAllFeatures (fun q => q) ⟨false, [dRow]⟩).getD 0 ⟨dRow, [], 0⟩

/-- Comparison witness: probability 0.62. -/
def presA : PredRes := ⟨"Player A", 0.62⟩

/-- Comparison witness: probability 0.58. -/
def presB : PredRes := ⟨"Player B", 0.58⟩

/-! ## Helper lemmas -/

theorem length_take_of_lt {xs : List ℚ} {i : Nat} (hi : i < xs.length) :
    (xs.take (i + 1)).length = i + 1 := by
  simp [List.length_take]
  omega

theorem length_windowAt {w i : Nat} {xs : List ℚ} (hi : i < xs.length) :
    (windowAt w xs i).length = min w (i + 1) := by
  simp [windowAt, List.length_drop, length_take_of_lt hi]
  omega

theorem windowAt_eq_lastValues {w i : Nat} {xs : List ℚ} (hi : i < xs.length) :
    windowAt w xs i = lastValues (min w (i + 1)) (xs.take (i + 1)) := by
  unfold windowAt lastValues
  rw [length_take_of_lt hi]
  congr 1
  omega

theorem sum_map_sq_sub (l : List ℚ) (m : ℚ) :
    (l.map fun x => (x - m) ^ 2).sum =
      (l.map fun x => x ^ 2).sum - 2 * m * l.sum + (l.length : ℚ) * m ^ 2 := by
  induction l with
  | nil => simp
  | cons a t ih =>
    simp only [List.map_cons, List.sum_cons, List.length_cons, ih]
    push_cast
    ring

theorem listVar_eq_unbiasedSampleVar (l : List ℚ) (h : l ≠ []) :
    listVar l = unbiasedSampleVar l := by
  have hn : (l.length : ℚ) ≠ 0 := by
    have : 0 < l.length := List.length_pos.mpr h
    exact_mod_cast this.ne'
  unfold listVar unbiasedSampleVar
  congr 1
  rw [sum_map_sq_sub l (listMean l), listMean]
  field_simp
  ring

theorem rollingMean_trailing (w : Nat) (xs : List ℚ) (i : Nat)
    (hw : 0 < w) (hi : i < xs.length) :
    rollingMean w 1 xs i =
      some ((lastValues (min w (i + 1)) (xs.take (i + 1))).sum /
        ((min w (i + 1) : Nat) : ℚ)) := by
  have hlen : (windowAt w xs i).length = min w (i + 1) := length_windowAt hi
  have hw1 : 1 ≤ (windowAt w xs i).length := by omega
  unfold rollingMean
  rw [if_pos hw1, listMean, hlen, windowAt_eq_lastValues hi]

/-! ## C2 -/

/-- C2: for every table, every entity, every statistic and every window size
`w ≥ 1`, the rolling-mean feature `rolling(window=w, min_periods=1).mean()`
over the entity's time-ordered series (as `groupby(player).transform` applies
it after the `(player, season, week)` sort) is defined at every row and equals
the arithmetic mean of the last `min w (i+1)` values of that series. -/
theorem rolling_mean_is_trailing_mean (rows : List Row) (f : Row → ℚ)
    (p : String) (w i : Nat) (hw : 0 < w)
    (hi : i < (statSeries rows f p).length) :
    rollingMean w 1 (statSeries rows f p) i =
      some ((lastValues (min w (i + 1)) ((statSeries rows f p).take (i + 1))).sum /
        ((min w (i + 1) : Nat) : ℚ)) :=
  rollingMean_trailing w (statSeries rows f p) i hw hi

/-- Witness for C2 at the spec scenario: one entity with fantasy scores
`[10, 20, 30]`, window 3; at the third period the rolling mean is the mean of
all three values, `60 / 3 = 20`. -/
theorem rolling_mean_is_trailing_mean_witness :
    0 < 3 ∧
    2 < (statSeries wRows (fun r => r.fantasy_points) "Alpha").length ∧
    rollingMean 3 1 (statSeries wRows (fun r => r.fantasy_points) "Alpha") 2 =
      some ((lastValues (min 3 (2 + 1))
          ((statSeries wRows (fun r => r.fantasy_points) "Alpha").take (2 + 1))).sum /
        ((min 3 (2 + 1) : Nat) : ℚ)) :=
  ⟨by decide, by decide,
    rolling_mean_is_trailing_mean wRows (fun r => r.fantasy_points) "Alpha" 3 2
      (by decide) (by decide)⟩

/-! ## C3 -/

/-- C3: for every table, every entity, every statistic and every window size
`w ≥ 2`, the square of the rolling-std feature
`rolling(window=w, min_periods=2).std().fillna(0)` over the entity's
time-ordered series is exactly `0` at the entity's first row (fewer than 2
periods observed) and equals the unbiased (`ddof = 1`) sample variance of the
trailing window of the last `min w (i+1)` values at every later row;
equivalently (both sides being nonnegative square roots) the std column is `0`
before 2 observations and the unbiased sample standard deviation afterwards. -/
theorem rolling_std_sq_spec (rows : List Row) (f : Row → ℚ) (p : String)
    (w i : Nat) (hw : 2 ≤ w) (hi : i < (statSeries rows f p).length) :
    (i = 0 → rollingVarFilled w (statSeries rows f p) i = 0) ∧
    (1 ≤ i → rollingVarFilled w (statSeries rows f p) i =
      unbiasedSampleVar
        (lastValues (min w (i + 1)) ((statSeries rows f p).take (i + 1)))) := by
  have hlen : (windowAt w (statSeries rows f p) i).length = min w (i + 1) :=
    length_windowAt hi
  constructor
  · intro h0
    subst h0
    unfold rollingVarFilled rollingVar
    rw [if_neg]
    · rfl
    · omega
  · intro h1
    have h2 : 2 ≤ (windowAt w (statSeries rows f p) i).length := by omega
    have hne : windowAt w (statSeries rows f p) i ≠ [] := by
      intro hnil
      rw [hnil] at h2
      simp at h2
    unfold rollingVarFilled rollingVar
    rw [if_pos ⟨by omega, h2⟩]
    rw [Option.getD_some, listVar_eq_unbiasedSampleVar _ hne,
      windowAt_eq_lastValues hi]

/-- Witness for C3 at the spec scenario: fantasy scores `[10, 20, 30]`,
window 3; at the third period the squared rolling std equals the unbiased
sample variance of the three values (which is `100`, i.e. std `10`). -/
theorem rolling_std_sq_spec_witness :
    2 ≤ 3 ∧
    2 < (statSeries wRows (fun r => r.fantasy_points) "Alpha").length ∧ 1 ≤ 2 ∧
    rollingVarFilled 3 (statSeries wRows (fun r => r.fantasy_points) "Alpha") 2 =
      unbiasedSampleVar (lastValues (min 3 (2 + 1))
        ((statSeries wRows (fun r => r.fantasy_points) "Alpha").take (2 + 1))) :=
  ⟨by decide, by decide, by decide,
    (rolling_std_sq_spec wRows (fun r => r.fantasy_points) "Alpha" 3 2
      (by decide) (by decide)).2 (by decide)⟩

/-! ## C4 -/

/-- C4: the code's trend feature diverges from the claimed one.  On the entity
series `[0, 0, 0, 6, 6, 6, 6, 6, 6]` the 9th row has recent-3 mean `6` and
prior non-overlapping 3-period mean `6`, so the claimed trend is `0`; the code
instead subtracts the 6-period mean ending 3 rows back,
`(0+0+0+6+6+6)/6 = 3`, and reports `6 − 3 = 3` — contradicting its own inline
comment (feature_engineering.py:93 says last 3 vs previous 3). -/
theorem trend3v3_divergence :
    trend3v3 [(0 : ℚ), 0, 0, 6, 6, 6, 6, 6, 6] 8 = some 3 ∧
    trend3v3Claimed [(0 : ℚ), 0, 0, 6, 6, 6, 6, 6, 6] 8 = some 0 := by
  constructor
  · norm_num [trend3v3, rollingMean, windowAt, listMean]
  · norm_num [trend3v3Claimed, rollingMean, windowAt, listMean]

/-! ## C5 -/

/-- C5 counterexample: a 10-row engineered table whose target column is all
`1` (a single class) does not make the stratified split raise — the split
succeeds and the pipeline proceeds to fit the model, refuting the claim that
the split raises rather than silently training. -/
theorem single_class_split_does_not_raise :
    (List.replicate 10 1).dedup = [1] ∧
    stratifiedSplitRaises (List.replicate 10 1) (1 / 5) = false ∧
    trainReachesFit (List.replicate 10 1) (1 / 5) = true := by
  have h1 : nTestRows 10 (1 / 5) = 2 := by
    norm_num [nTestRows]
    decide
  have h2 : nTrainRows 10 (1 / 5) = 8 := by
    norm_num [nTrainRows, nTestRows]
    decide
  have hraise : stratifiedSplitRaises (List.replicate 10 1) (1 / 5) = false := by
    unfold stratifiedSplitRaises
    rw [show (List.replicate 10 1).dedup = [1] by decide,
      show (List.replicate 10 1).length = 10 by decide, h1, h2,
      show ([1].map fun c => (List.replicate 10 1).count c) = [10] by decide]
    decide
  exact ⟨by decide, hraise, by unfold trainReachesFit; rw [hraise]; rfl⟩

theorem dedup_all_ones {y : List Nat} (hne : y ≠ []) (hall : ∀ c ∈ y, c = 1) :
    y.dedup = [1] := by
  induction y with
  | nil => exact absurd rfl hne
  | cons a t ih =>
    have ha : a = 1 := hall a (List.mem_cons_self a t)
    subst ha
    cases t with
    | nil => decide
    | cons b u =>
      have hb : b = 1 := hall b (by simp)
      have ht : (b :: u).dedup = [1] := by
        refine ih (by simp) ?_
        intro c hc
        exact hall c (List.mem_cons_of_mem _ hc)
      have hmem : (1 : Nat) ∈ b :: u := by
        rw [hb]
        exact List.mem_cons_self 1 u
      rw [List.dedup_cons_of_mem hmem, ht]

/-- C5 amended: for every target column with at least two rows and a single
class present (all targets `1`), the stratified split of `train_and_evaluate`
with the default `test_size = 0.2` does not raise, and the pipeline silently
proceeds to train the model. -/
theorem single_class_split_proceeds (y : List Nat)
    (h2 : 2 ≤ y.length) (hall : ∀ c ∈ y, c = 1) :
    stratifiedSplitRaises y (1 / 5) = false ∧
    trainReachesFit y (1 / 5) = true := by
  have hne : y ≠ [] := by
    intro h
    rw [h] at h2
    simp at h2
  have hdedup : y.dedup = [1] := dedup_all_ones hne hall
  have hcount : y.count 1 = y.length := by
    rw [List.count_eq_length]
    intro b hb
    exact (hall b hb).symm
  have hn : (2 : ℚ) ≤ (y.length : ℚ) := by exact_mod_cast h2
  have htest : 1 ≤ nTestRows y.length (1 / 5) := by
    unfold nTestRows
    have hpos : (0 : ℚ) < (y.length : ℚ) * (1 / 5) := by
      have h0 : (0 : ℚ) < (y.length : ℚ) := by linarith
      positivity
    have hc : (1 : ℤ) ≤ ⌈(y.length : ℚ) * (1 / 5)⌉ := Int.ceil_pos.mpr hpos
    omega
  have htrain : 1 ≤ nTrainRows y.length (1 / 5) := by
    unfold nTrainRows nTestRows
    have hle : ⌈(y.length : ℚ) * (1 / 5)⌉ ≤ (y.length : ℤ) - 1 := by
      rw [Int.ceil_le]
      push_cast
      linarith
    omega
  have hraise : stratifiedSplitRaises y (1 / 5) = false := by
    unfold stratifiedSplitRaises
    rw [hdedup]
    simp only [List.map_cons, List.map_nil, List.any_cons, List.any_nil,
      List.length_cons, List.length_nil, hcount, Bool.or_false]
    simp only [Bool.or_eq_false_iff, decide_eq_false_iff_not]
    refine ⟨⟨?_, ?_⟩, ?_⟩ <;> omega
  exact ⟨hraise, by unfold trainReachesFit; rw [hraise]; rfl⟩

/-- Witness for the amended C5 at a 12-row single-class target column. -/
theorem single_class_split_proceeds_witness :
    2 ≤ (List.replicate 12 1).length ∧
    stratifiedSplitRaises (List.replicate 12 1) (1 / 5) = false ∧
    trainReachesFit (List.replicate 12 1) (1 / 5) = true :=
  ⟨by decide,
    single_class_split_proceeds (List.replicate 12 1) (by decide) (by decide)⟩

/-! ## C9 -/

/-- C9: for every probability in `[0,1]` and predicted class in `{0,1}`, the
confidence tier is HIGH iff `p ≥ 0.8`, MEDIUM iff `0.6 ≤ p < 0.8`, LOW iff
`p < 0.6`, and the recommendation is STRONG START iff `(1, p ≥ 0.7)`,
CONSIDER STARTING iff `(1, p < 0.7)`, AVOID iff `(0, p ≥ 0.7)`, and
CONSIDER BENCHING iff `(0, p < 0.7)`. -/
theorem confidence_and_recommendation_tiers (p : ℚ) (pred : Nat)
    (hp0 : 0 ≤ p) (hp1 : p ≤ 1) (hpred : pred = 0 ∨ pred = 1) :
    (getConfidenceLevel p = "HIGH" ↔ 0.8 ≤ p) ∧
    (getConfidenceLevel p = "MEDIUM" ↔ 0.6 ≤ p ∧ p < 0.8) ∧
    (getConfidenceLevel p = "LOW" ↔ p < 0.6) ∧
    (getRecommendation pred p = "STRONG START" ↔ pred = 1 ∧ 0.7 ≤ p) ∧
    (getRecommendation pred p = "CONSIDER STARTING" ↔ pred = 1 ∧ p < 0.7) ∧
    (getRecommendation pred p = "AVOID" ↔ pred = 0 ∧ 0.7 ≤ p) ∧
    (getRecommendation pred p = "CONSIDER BENCHING" ↔ pred = 0 ∧ p < 0.7) := by
  unfold getConfidenceLevel getRecommendation
  rcases hpred with h | h <;> subst h <;>
    split_ifs with h1 h2 <;>
    refine ⟨?_, ?_, ?_, ?_, ?_, ?_, ?_⟩ <;>
    constructor <;>
    intro hx <;>
    simp_all <;>
    first
      | rfl
      | linarith

/-- Witness for C9 at the spec scenario: probability `0.85`, prediction `1`
give confidence HIGH and recommendation STRONG START. -/
theorem confidence_and_recommendation_tiers_witness :
    (0 : ℚ) ≤ 0.85 ∧ (0.85 : ℚ) ≤ 1 ∧ ((1 : Nat) = 0 ∨ (1 : Nat) = 1) ∧
    ((getConfidenceLevel 0.85 = "HIGH" ↔ (0.8 : ℚ) ≤ 0.85) ∧
     (getConfidenceLevel 0.85 = "MEDIUM" ↔ (0.6 : ℚ) ≤ 0.85 ∧ (0.85 : ℚ) < 0.8) ∧
     (getConfidenceLevel 0.85 = "LOW" ↔ (0.85 : ℚ) < 0.6) ∧
     (getRecommendation 1 0.85 = "STRONG START" ↔ (1 : Nat) = 1 ∧ (0.7 : ℚ) ≤ 0.85) ∧
     (getRecommendation 1 0.85 = "CONSIDER STARTING" ↔ (1 : Nat) = 1 ∧ (0.85 : ℚ) < 0.7) ∧
     (getRecommendation 1 0.85 = "AVOID" ↔ (1 : Nat) = 0 ∧ (0.7 : ℚ) ≤ 0.85) ∧
     (getRecommendation 1 0.85 = "CONSIDER BENCHING" ↔ (1 : Nat) = 0 ∧ (0.85 : ℚ) < 0.7)) :=
  ⟨by norm_num, by norm_num, by decide,
    confidence_and_recommendation_tiers 0.85 1 (by norm_num) (by norm_num) (by decide)⟩

/-! ## Sort invariance and C8 -/

theorem eq_of_perm_of_map_eq {α β : Type} (f : α → β) :
    ∀ {l1 l2 : List α}, l1.Perm l2 → l1.map f = l2.map f →
      (l1.map f).Nodup → l1 = l2 := by
  intro l1
  induction l1 with
  | nil =>
    intro l2 hp _ _
    exact hp.nil_eq
  | cons a t ih =>
    intro l2 hp hmap hnd
    cases l2 with
    | nil => exact absurd hp.symm.nil_eq (by simp)
    | cons b t2 =>
      have hfab : f a = f b := by
        have := congrArg (fun l => l.headD (f a)) hmap
        simpa using this
      have hb : b ∈ a :: t := hp.mem_iff.mpr (List.mem_cons_self b t2)
      have hab : a = b := by
        rcases List.mem_cons.mp hb with h | h
        · exact h.symm
        · exfalso
          have hfb : f b ∈ t.map f := List.mem_map_of_mem f h
          exact (List.nodup_cons.mp hnd).1 (hfab ▸ hfb)
      subst hab
      have hpt : t.Perm t2 := hp.cons_inv
      have hmapt : t.map f = t2.map f := by
        simpa using hmap
      rw [ih hpt hmapt (List.nodup_cons.mp hnd).2]

theorem sortRows_eq_of_perm {l1 l2 : List Row} (hperm : l1.Perm l2)
    (hkeys : (l1.map rowKey).Nodup) : sortRows l1 = sortRows l2 := by
  have p1 := List.perm_insertionSort rowLE l1
  have p2 := List.perm_insertionSort rowLE l2
  have s1 := List.sorted_insertionSort rowLE l1
  have s2 := List.sorted_insertionSort rowLE l2
  have hps : (sortRows l1).Perm (sortRows l2) :=
    ((p1.trans hperm).trans p2.symm)
  have hks1 : ((sortRows l1).map rowKey).Sorted (· ≤ ·) :=
    List.pairwise_map.mpr s1
  have hks2 : ((sortRows l2).map rowKey).Sorted (· ≤ ·) :=
    List.pairwise_map.mpr s2
  have hkeq : (sortRows l1).map rowKey = (sortRows l2).map rowKey :=
    List.eq_of_perm_of_sorted (hps.map rowKey) hks1 hks2
  have hnd : ((sortRows l1).map rowKey).Nodup :=
    ((p1.map rowKey).nodup_iff).mpr hkeys
  exact eq_of_perm_of_map_eq rowKey hps hkeq hnd

/-- C8: `engineer_all_features` is deterministic and independent of row
ingestion order.  For every abstracted square root and any two input tables
that carry the same optional-column layout and whose row lists are
permutations of each other (the same table ingested in any order), provided
rows are uniquely keyed by `(player, season, week)` (the documented
`PerformanceRecord` invariant), the two engineered outputs agree on every row,
every cell and the column order; taking the permutation to be the identity,
two runs on the identical input are identical. -/
theorem engineer_perm_invariant (sq : ℚ → ℚ) (t1 t2 : RawTable)
    (hflag : t1.hasOverPerformed = t2.hasOverPerformed)
    (hperm : t1.rows.Perm t2.rows)
    (hkeys : (t1.rows.map rowKey).Nodup) :
    engineerAllFeatures sq t1 = engineerAllFeatures sq t2 := by
  unfold engineerAllFeatures
  rw [hflag, sortRows_eq_of_perm hperm hkeys]

/-- Witness for C8: the two-row table `[rowA, rowB]` ingested in either order
engineers to the same output. -/
theorem engineer_perm_invariant_witness :
    (RawTable.mk true [rowA, rowB]).hasOverPerformed =
      (RawTable.mk true [rowB, rowA]).hasOverPerformed ∧
    (RawTable.mk true [rowA, rowB]).rows.Perm (RawTable.mk true [rowB, rowA]).rows ∧
    ((RawTable.mk true [rowA, rowB]).rows.map rowKey).Nodup ∧
    engineerAllFeatures (fun q => q) (RawTable.mk true [rowA, rowB]) =
      engineerAllFeatures (fun q => q) (RawTable.mk true [rowB, rowA]) :=
  ⟨rfl, List.Perm.swap rowB rowA [], by decide,
    engineer_perm_invariant (fun q => q) (RawTable.mk true [rowA, rowB])
      (RawTable.mk true [rowB, rowA]) rfl (List.Perm.swap rowB rowA []) (by decide)⟩

/-! ## C1 -/

/-- C1 counterexample: in a table that carries an `over_performed` column, the
code takes the target from that flag (feature_engineering.py:181-183), so a
row flagged over-performed whose actual score merely equals its projection
gets target `1` even though `fantasy_points > projection` fails — the claimed
biconditional does not hold for every row of every engineered table. -/
theorem target_not_iff_comparison :
    ¬ (∀ e ∈ engineerAllFeatures (fun q => q) ⟨true, [cRow]⟩,
        (e.target = 1 ↔ e.base.projection < e.base.fantasy_points)) := by
  decide

/-- C1 amended: for every engineered table built from an input without an
`over_performed` column, every output row's target is `1` iff the row's
`fantasy_points` strictly exceeds its `projection`; when the flag column is
present the target is the flag instead. -/
theorem target_matches_comparison (sq : ℚ → ℚ) (t : RawTable) (e : EngRow)
    (he : e ∈ engineerAllFeatures sq t) (hop : t.hasOverPerformed = false) :
    (e.target = 1 ↔ e.base.projection < e.base.fantasy_points) := by
  have hbase : e.target = targetOf t.hasOverPerformed e.base := by
    unfold engineerAllFeatures engineerSorted at he
    obtain ⟨p, hp, rfl⟩ := List.mem_map.mp he
    rfl
  rw [hbase, hop]
  unfold targetOf
  simp only [Bool.false_eq_true, if_false, gt_iff_lt]
  split_ifs with h <;> simp [h]

/-- Witness for the amended C1 at the spec scenario: a record with actual 25
and projection 20 and no flag column engineers to target 1. -/
theorem target_matches_comparison_witness :
    dEng ∈ engineerAllFeatures (fun q => q) ⟨false, [dRow]⟩ ∧
    (RawTable.mk false [dRow]).hasOverPerformed = false ∧
    (dEng.target = 1 ↔ dEng.base.projection < dEng.base.fantasy_points) :=
  ⟨List.mem_singleton_self dEng, rfl,
    target_matches_comparison (fun q => q) ⟨false, [dRow]⟩ dEng
      (List.mem_singleton_self dEng) rfl⟩

/-! ## C6 -/

/-- C6: whenever the candidate table's engineered columns are not a superset
of the persisted feature-column list, `make_predictions` fails with the pandas
`KeyError` of the column selection, and the result is this error for every
possible model `predict` / `predict_proba` function — the model functions are
never invoked, so the failure happens before any inference call. -/
theorem missing_feature_cols_error (predictFn : Frame → List Nat)
    (probaFn : Frame → List ℚ) (featureCols : List String) (data : Frame)
    (h : ¬ ∀ c ∈ featureCols, c ∈ data.cols) :
    makePredictions predictFn probaFn featureCols data = Except.error "KeyError" := by
  have hcond : ¬ (featureCols.all fun c => data.cols.contains c) = true := by
    intro hall
    apply h
    intro c hc
    have hc2 := List.all_eq_true.mp hall c hc
    simpa using hc2
  unfold makePredictions selectFrameCols frameHasCols
  rw [if_neg hcond]

/-- Witness for C6: a trained feature list `[feat_a]` against a table that
only has column `other` errors out, with the model functions arbitrary. -/
theorem missing_feature_cols_error_witness :
    (¬ ∀ c ∈ ["feat_a"], c ∈ (Frame.mk ["other"] []).cols) ∧
    makePredictions (fun _ => []) (fun _ => []) ["feat_a"] (Frame.mk ["other"] []) =
      Except.error "KeyError" :=
  ⟨by decide,
    missing_feature_cols_error (fun _ => []) (fun _ => []) ["feat_a"]
      (Frame.mk ["other"] []) (by decide)⟩

/-! ## C7 -/

/-- C7: whether or not the model artifact exists, constructing the
single-player `PlayerPredictor` never yields a usable predictor — the
constructor always takes an exit branch (missing file, or the caught
`AttributeError` from the undefined `BaselineModel.load_model`) — and even the
prediction step, were it reached, would produce an error-tagged result for
every probability, since `predict_single_player`,
`predict_proba_single_player` and `get_feature_importance` are all undefined
on `BaselineModel`. -/
theorem prediction_service_never_usable :
    (∀ b : Bool, playerPredictorInit b = InitOutcome.exited 1) ∧
    (∀ p : ℚ, predictPlayerStep p =
      PredictOutcome.errorTagged "Prediction failed: AttributeError") := by
  constructor
  · intro b
    cases b <;> rfl
  · intro p
    rfl

/-! ## C10 -/

/-- C10: the report aggregator's ranking is a permutation of its input sorted
descending by over-perform probability (so every result with higher
probability is ranked above every result with lower), and for every pair of
compared results with unequal probabilities the comparison reports the
higher-probability one as the favored pick with margin equal to the
difference of the two probabilities. -/
theorem ranking_and_comparison :
    (∀ l : List PredRes, (sortByProbDesc l).Perm l ∧
      (sortByProbDesc l).Sorted probDescLE) ∧
    (∀ r1 r2 : PredRes,
      (r2.over_perform_probability < r1.over_perform_probability →
        displayComparison r1 r2 =
          some (r1.player_name,
            r1.over_perform_probability - r2.over_perform_probability)) ∧
      (r1.over_perform_probability < r2.over_perform_probability →
        displayComparison r1 r2 =
          some (r2.player_name,
            r2.over_perform_probability - r1.over_perform_probability))) := by
  constructor
  · intro l
    exact ⟨List.perm_insertionSort probDescLE l, List.sorted_insertionSort probDescLE l⟩
  · intro r1 r2
    constructor
    · intro h
      unfold displayComparison
      rw [if_pos h]
    · intro h
      unfold displayComparison
      rw [if_neg (by exact not_lt_of_gt h), if_pos h]

/-- Witness for C10 at the spec scenario: probabilities 0.62 and 0.58 — the
first entity is the favored pick with margin 0.04. -/
theorem ranking_and_comparison_witness :
    presB.over_perform_probability < presA.over_perform_probability ∧
    displayComparison presA presB = some ("Player A", 0.04) := by
  have h : presB.over_perform_probability < presA.over_perform_probability := by
    norm_num [presA, presB]
  have hc := (ranking_and_comparison.2 presA presB).1 h
  refine ⟨h, ?_⟩
  rw [hc]
  norm_num [presA, presB]

end Ballerz
